import Mathlib

/-
Verification of the compatibility scoring engine and its recomputation
pipeline (a Django dating-backend).  The definitions below are a shallow
embedding of the Python sources:

  * api/services/compatibility_service.py  (scoring algorithm, required
    scoring, completeness, cache wrapper)
  * api/services/compatibility_queue.py    (enqueue policy, job queue)
  * api/views.py  compatibility_with       (direction-resolved pair read)
  * api/models.py CompatibilityJob         (job state machine)

Numeric conventions: Python floats are idealised as exact real numbers
(ℝ); database float columns read back by the view layer are idealised as
rationals (ℚ) so that record equality is decidable.  The final
`round(x, 2)` / `round(x, 3)` float-presentation rounding that the Python
code applies to its returned dictionaries has no exact counterpart for
binary floating point and is omitted: every theorem below is about the
exact values that are being rounded.
-/

namespace Compat

/-! ### Constants (api/models.py Controls, compatibility_service.get_constants) -/

structure Constants where
  adjust : ℝ
  exponent : ℝ
  ota : ℝ

/-- Default Controls row: adjust 5.0, exponent 2.0, ota 0.5. -/
noncomputable def defaultConstants : Constants := ⟨5, 2, 1/2⟩

/-! ### CompatibilityService.map_importance_to_factor -/

/-- Embedding of `CompatibilityService.map_importance_to_factor`.
`(importance - 3) ** exponent` is Python float power with a float
exponent, embedded as `Real.rpow`. -/
noncomputable def map_importance_to_factor (importance : ℤ) (exponent : ℝ) : ℝ :=
  if importance = 1 then 0.0
  else if importance = 2 then 0.5
  else if importance = 3 then 1.0
  else if importance = 4 ∨ importance = 5 then
    1.0 + ((importance : ℝ) - 3) ^ exponent
  else 1.0  -- fallback

/-! ### CompatibilityService.calculate_question_score -/

structure QuestionScore where
  M_A : ℝ
  MAX_A : ℝ
  M_B : ℝ
  MAX_B : ℝ

/-- Embedding of `CompatibilityService.calculate_question_score`. -/
noncomputable def calculate_question_score (c : Constants)
    (my_them my_importance their_me my_me their_them their_importance : ℤ)
    (my_open_to_all their_open_to_all : Bool) : QuestionScore :=
  let my_importance_factor := map_importance_to_factor my_importance c.exponent
  let their_importance_factor := map_importance_to_factor their_importance c.exponent
  -- Direction A: compare my_them vs their_me
  let A : ℝ × ℝ :=
    if my_open_to_all = true ∨ my_them = 6 ∨ their_me = 6 then
      (c.adjust * c.ota, c.adjust)
    else
      let delta_A : ℝ := |(my_them : ℝ) - (their_me : ℝ)|
      let adj_A := c.adjust - delta_A
      (max 0.0 (adj_A * my_importance_factor), c.adjust * my_importance_factor)
  -- Direction B: compare my_me vs their_them
  let B : ℝ × ℝ :=
    if their_open_to_all = true ∨ their_them = 6 ∨ my_me = 6 then
      (c.adjust * c.ota, c.adjust)
    else
      let delta_B : ℝ := |(my_me : ℝ) - (their_them : ℝ)|
      let adj_B := c.adjust - delta_B
      (max 0.0 (adj_B * their_importance_factor), c.adjust * their_importance_factor)
  ⟨A.1, A.2, B.1, B.2⟩

/-! ### Answer maps and CompatibilityService._compute_scores_from_answer_maps -/

/-- One `UserAnswer` row, restricted to the fields the scorer reads. -/
structure UserAnswerData where
  me_answer : ℤ
  me_open_to_all : Bool
  me_importance : ℤ
  looking_for_answer : ℤ
  looking_for_open_to_all : Bool
  looking_for_importance : ℤ

/-- A Python dict keyed by `question_id`: a finite key set together with
the answer at each key (the value is only ever read at keys in `keys`). -/
structure AnswerMap where
  keys : Finset ℕ
  ans : ℕ → UserAnswerData

/-- The per-question call inside `_compute_scores_from_answer_maps`:
which fields of the two `UserAnswer` rows feed each argument of
`calculate_question_score`. -/
noncomputable def question_score_for (c : Constants) (user1_answer user2_answer : UserAnswerData) :
    QuestionScore :=
  calculate_question_score c
    user1_answer.looking_for_answer
    user1_answer.looking_for_importance
    user2_answer.me_answer
    user1_answer.me_answer
    user2_answer.looking_for_answer
    user2_answer.looking_for_importance
    user1_answer.looking_for_open_to_all
    user2_answer.me_open_to_all

/-- Return value of `_compute_scores_from_answer_maps`:
`(compatible_with_me, im_compatible_with, overall_compatibility, mutual_count)`. -/
structure ScoreTuple where
  compatible_with_me : ℝ
  im_compatible_with : ℝ
  overall_compatibility : ℝ
  mutual_count : ℕ

/-- Embedding of `CompatibilityService._compute_scores_from_answer_maps`
(the final 2-decimal float rounding of the returned percentages is
presentation-only and omitted, see the header comment). -/
noncomputable def compute_scores_from_answer_maps (a1_map a2_map : AnswerMap) (c : Constants) :
    ScoreTuple :=
  let mutual_question_ids := a1_map.keys ∩ a2_map.keys
  if mutual_question_ids = ∅ then ⟨0, 0, 0, 0⟩
  else
    let total_M_A := ∑ q ∈ mutual_question_ids, (question_score_for c (a1_map.ans q) (a2_map.ans q)).M_A
    let total_MAX_A := ∑ q ∈ mutual_question_ids, (question_score_for c (a1_map.ans q) (a2_map.ans q)).MAX_A
    let total_M_B := ∑ q ∈ mutual_question_ids, (question_score_for c (a1_map.ans q) (a2_map.ans q)).M_B
    let total_MAX_B := ∑ q ∈ mutual_question_ids, (question_score_for c (a1_map.ans q) (a2_map.ans q)).MAX_B
    let direction_a := if 0 < total_MAX_A then total_M_A / total_MAX_A else 0
    let direction_b := if 0 < total_MAX_B then total_M_B / total_MAX_B else 0
    let direction_a_percentage := direction_a * 100
    let direction_b_percentage := direction_b * 100
    let overall_compatibility :=
      if 0 < direction_a_percentage ∧ 0 < direction_b_percentage then
        Real.sqrt (direction_a_percentage * direction_b_percentage)
      else 0
    ⟨direction_a_percentage, direction_b_percentage, overall_compatibility,
      mutual_question_ids.card⟩

/-! Spec-side formulation of the aggregation (claim C1), written from the
spec's words: sum each numerator and denominator independently, then
`pctX = 100 * sum(M_X)/sum(MAX_X)` (0 on zero denominator), and
`overall = sqrt(pctA * pctB)` if both are strictly positive, else 0. -/

noncomputable def sum_M_A_spec (a1 a2 : AnswerMap) (c : Constants) : ℝ :=
  ∑ q ∈ a1.keys ∩ a2.keys, (question_score_for c (a1.ans q) (a2.ans q)).M_A

noncomputable def sum_MAX_A_spec (a1 a2 : AnswerMap) (c : Constants) : ℝ :=
  ∑ q ∈ a1.keys ∩ a2.keys, (question_score_for c (a1.ans q) (a2.ans q)).MAX_A

noncomputable def sum_M_B_spec (a1 a2 : AnswerMap) (c : Constants) : ℝ :=
  ∑ q ∈ a1.keys ∩ a2.keys, (question_score_for c (a1.ans q) (a2.ans q)).M_B

noncomputable def sum_MAX_B_spec (a1 a2 : AnswerMap) (c : Constants) : ℝ :=
  ∑ q ∈ a1.keys ∩ a2.keys, (question_score_for c (a1.ans q) (a2.ans q)).MAX_B

noncomputable def pctA_spec (a1 a2 : AnswerMap) (c : Constants) : ℝ :=
  if 0 < sum_MAX_A_spec a1 a2 c then 100 * sum_M_A_spec a1 a2 c / sum_MAX_A_spec a1 a2 c else 0

noncomputable def pctB_spec (a1 a2 : AnswerMap) (c : Constants) : ℝ :=
  if 0 < sum_MAX_B_spec a1 a2 c then 100 * sum_M_B_spec a1 a2 c / sum_MAX_B_spec a1 a2 c else 0

noncomputable def overall_spec (a1 a2 : AnswerMap) (c : Constants) : ℝ :=
  if 0 < pctA_spec a1 a2 c ∧ 0 < pctB_spec a1 a2 c then
    Real.sqrt (pctA_spec a1 a2 c * pctB_spec a1 a2 c)
  else 0

/-! ### CompatibilityService.calculate_compatibility_between_users -/

/-- The result dictionary of `calculate_compatibility_between_users`
(fixed-shape record; the source builds a dict with exactly these keys;
the combined-completeness key is named `required_completeness_combined`
here). -/
structure CompatibilityResult where
  overall_compatibility : ℝ
  compatible_with_me : ℝ
  im_compatible_with : ℝ
  mutual_questions_count : ℕ
  required_overall_compatibility : ℝ
  required_compatible_with_me : ℝ
  required_im_compatible_with : ℝ
  their_required_compatibility : ℝ
  required_mutual_questions_count : ℕ
  user1_required_mutual_count : ℕ
  user2_required_mutual_count : ℕ
  user1_required_completeness : ℝ
  user2_required_completeness : ℝ
  required_completeness_combined : ℝ

/-- Python `max(0.0, min(1.0, x))`. -/
noncomputable def clamp01 (x : ℝ) : ℝ := max 0.0 (min 1.0 x)

/-- The `else` branch of `calculate_compatibility_between_users`
(at least one per-user required set is non-empty): restricted score maps
are the dict comprehensions `{qid: a[qid] for qid in req if qid in a}`,
i.e. the same value function on the intersected key set. -/
noncomputable def required_scores_branch (a1_all a2_all : AnswerMap)
    (user1_required_qids user2_required_qids : Finset ℕ) (c : Constants) :
    CompatibilityResult :=
  let base := compute_scores_from_answer_maps a1_all a2_all c
  let a1_my_req : AnswerMap := ⟨user1_required_qids ∩ a1_all.keys, a1_all.ans⟩
  let a2_for_my_req : AnswerMap := ⟨user1_required_qids ∩ a2_all.keys, a2_all.ans⟩
  let a1_for_their_req : AnswerMap := ⟨user2_required_qids ∩ a1_all.keys, a1_all.ans⟩
  let a2_their_req : AnswerMap := ⟨user2_required_qids ∩ a2_all.keys, a2_all.ans⟩
  -- Score on questions user1 marked required
  let s1 := compute_scores_from_answer_maps a1_my_req a2_for_my_req c
  -- Score on questions user2 marked required
  let s2 := compute_scores_from_answer_maps a1_for_their_req a2_their_req c
  let required_compatible_with_me := s1.compatible_with_me
  let required_im_compatible_with := s2.im_compatible_with
  let their_required_compatibility := s2.im_compatible_with
  let required_overall :=
    if user1_required_qids ≠ ∅ ∨ user2_required_qids ≠ ∅ then
      (s1.overall_compatibility + s2.overall_compatibility) / 2
    else base.overall_compatibility
  let required_mutual_count := s1.mutual_count + s2.mutual_count
  let user2_required_answered := (user2_required_qids ∩ a2_all.keys).card
  let user1_completeness_raw : ℝ :=
    if 0 < user2_required_answered then
      ((user2_required_qids ∩ a1_all.keys).card : ℝ) / (user2_required_answered : ℝ)
    else 0
  let user1_required_answered := (user1_required_qids ∩ a1_all.keys).card
  let user2_completeness_raw : ℝ :=
    if 0 < user1_required_answered then
      ((user1_required_qids ∩ a2_all.keys).card : ℝ) / (user1_required_answered : ℝ)
    else 0
  let user1_completeness := clamp01 user1_completeness_raw
  let user2_completeness := clamp01 user2_completeness_raw
  { overall_compatibility := base.overall_compatibility
    compatible_with_me := base.compatible_with_me
    im_compatible_with := base.im_compatible_with
    mutual_questions_count := base.mutual_count
    required_overall_compatibility := required_overall
    required_compatible_with_me := required_compatible_with_me
    required_im_compatible_with := required_im_compatible_with
    their_required_compatibility := their_required_compatibility
    required_mutual_questions_count := required_mutual_count
    user1_required_mutual_count := s1.mutual_count
    user2_required_mutual_count := s2.mutual_count
    user1_required_completeness := user1_completeness
    user2_required_completeness := user2_completeness
    required_completeness_combined := (user1_completeness + user2_completeness) / 2 }

/-- Embedding of `CompatibilityService.calculate_compatibility_between_users`
with default flags (`required_only = exclude_required = False`), as the
pure function of the two users' answer maps and `UserRequiredQuestion`
sets.  The ephemeral cache wrapper around it is modelled separately in
`calculate_with_cache`. -/
noncomputable def calculate_compatibility_between_users (a1_all a2_all : AnswerMap)
    (user1_required_qids user2_required_qids : Finset ℕ) (c : Constants) :
    CompatibilityResult :=
  let base := compute_scores_from_answer_maps a1_all a2_all c
  if user1_required_qids = ∅ ∧ user2_required_qids = ∅ then
    -- No per-user required: required scores equal overall, completeness 1.0
    { overall_compatibility := base.overall_compatibility
      compatible_with_me := base.compatible_with_me
      im_compatible_with := base.im_compatible_with
      mutual_questions_count := base.mutual_count
      required_overall_compatibility := base.overall_compatibility
      required_compatible_with_me := base.compatible_with_me
      required_im_compatible_with := base.im_compatible_with
      their_required_compatibility := base.im_compatible_with
      required_mutual_questions_count := base.mutual_count
      user1_required_mutual_count := base.mutual_count
      user2_required_mutual_count := base.mutual_count
      user1_required_completeness := 1.0
      user2_required_completeness := 1.0
      required_completeness_combined := 1.0 }
  else
    required_scores_branch a1_all a2_all user1_required_qids user2_required_qids c

/-! ### The ephemeral score cache around calculate_compatibility_between_users -/

/-- `cache_key = f"compatibility_{min(user1.id, user2.id)}_{max(user1.id, user2.id)}"`
(default flags, so the suffix is empty). -/
def cache_key (id1 id2 : ℕ) : String :=
  "compatibility_" ++ toString (min id1 id2) ++ "_" ++ toString (max id1 id2)

/-- The per-user data the service fetches: answers (`UserAnswer`) and the
required-question id set (`UserRequiredQuestion`), keyed by user id. -/
structure UserDb where
  answers : ℕ → AnswerMap
  required : ℕ → Finset ℕ

/-- Cache-wrapped `calculate_compatibility_between_users(user1, user2)`:
on a hit (`cache.get(cache_key)` non-None) the cached dictionary is
returned unchanged; on a miss the result is computed with `user1` in the
first (slot-1) position and stored under the sorted-pair key.  Returns
the result together with the updated cache state. -/
noncomputable def calculate_with_cache (db : UserDb) (c : Constants)
    (cache : String → Option CompatibilityResult) (user1 user2 : ℕ) :
    CompatibilityResult × (String → Option CompatibilityResult) :=
  let key := cache_key user1 user2
  match cache key with
  | some cached_result => (cached_result, cache)
  | none =>
      let result := calculate_compatibility_between_users
        (db.answers user1) (db.answers user2) (db.required user1) (db.required user2) c
      (result, fun k => if k = key then some result else cache k)

/-! ### PairStore read direction (api/views.py compatibility_with) -/

/-- One stored `Compatibility` row (canonical slot1/slot2 orientation).
Float columns are idealised as ℚ so record equality is decidable. -/
structure StoredCompatibility where
  user1_id : ℕ
  user2_id : ℕ
  overall_compatibility : ℚ
  compatible_with_me : ℚ
  im_compatible_with : ℚ
  mutual_questions_count : ℕ
  required_overall_compatibility : ℚ
  required_compatible_with_me : ℚ
  required_im_compatible_with : ℚ
  their_required_compatibility : ℚ
  required_mutual_questions_count : ℕ
  user1_required_completeness : ℚ
  user2_required_completeness : ℚ
deriving DecidableEq

/-- The response body of `compatibility_with`. -/
structure CompatibilityWithResponse where
  overall_compatibility : ℚ
  compatible_with_me : ℚ
  im_compatible_with : ℚ
  mutual_questions_count : ℕ
  required_overall_compatibility : ℚ
  required_compatible_with_me : ℚ
  required_im_compatible_with : ℚ
  their_required_compatibility : ℚ
  required_mutual_questions_count : ℕ
  user1_required_completeness : ℚ
  user2_required_completeness : ℚ
deriving DecidableEq

/-- Embedding of the `compatibility_with` view given the row found for
the pair (the view looks the row up in either stored orientation and
branches on `is_user1 = (compatibility.user1_id == user_id)`). -/
def compatibility_with (compatibility : StoredCompatibility) (user_id : ℕ) :
    CompatibilityWithResponse :=
  { overall_compatibility := compatibility.overall_compatibility
    compatible_with_me :=
      if compatibility.user1_id = user_id then compatibility.compatible_with_me
      else compatibility.im_compatible_with
    im_compatible_with :=
      if compatibility.user1_id = user_id then compatibility.im_compatible_with
      else compatibility.compatible_with_me
    mutual_questions_count := compatibility.mutual_questions_count
    required_overall_compatibility := compatibility.required_overall_compatibility
    required_compatible_with_me :=
      if compatibility.user1_id = user_id then compatibility.required_compatible_with_me
      else compatibility.required_im_compatible_with
    required_im_compatible_with :=
      if compatibility.user1_id = user_id then compatibility.required_im_compatible_with
      else compatibility.required_compatible_with_me
    their_required_compatibility :=
      if compatibility.user1_id = user_id then compatibility.their_required_compatibility
      else compatibility.required_compatible_with_me
    required_mutual_questions_count := compatibility.required_mutual_questions_count
    user1_required_completeness :=
      if compatibility.user1_id = user_id then compatibility.user2_required_completeness
      else compatibility.user1_required_completeness
    user2_required_completeness :=
      if compatibility.user1_id = user_id then compatibility.user1_required_completeness
      else compatibility.user2_required_completeness }

/-! ### Job queue (api/models.py CompatibilityJob, api/services/compatibility_queue.py) -/

/-- `CompatibilityJob.status` values. -/
inductive JobStatus where
  | pending
  | processing
  | completed
  | failed
deriving DecidableEq

/-- One `CompatibilityJob` row (timestamps idealised as naturals). -/
structure Job where
  user_id : ℕ
  status : JobStatus
  attempts : ℕ
  error_message : String
  created_at : ℕ
  updated_at : ℕ
deriving DecidableEq

def MIN_MATCHABLE_ANSWERS : ℕ := 10

/-- Hardcoded onboarding flow triggers (final-step Kids questions). -/
def ONBOARDING_TRIGGER_QUESTION_IDS : List String :=
  ["b3d3b8c8-f1ef-43ce-8e36-1b78b75848c6", "4be86e73-87be-4c81-a66a-5490255f3e3b"]

structure EnqueueResult where
  created : Bool
  updated : Bool
  skipped : Bool
  reason : Option String
deriving DecidableEq

/-- Embedding of `enqueue_user_for_recalculation`.  The job table is the
user's `Option Job` (OneToOne); the function returns the result metadata
together with the new job row state.  In the already-pending unforced
branch the source only touches `updated_at`. -/
def enqueue_user_for_recalculation (answer_count : ℕ) (job? : Option Job)
    (force : Bool) (now : ℕ) (user_id : ℕ) : EnqueueResult × Option Job :=
  if force = false ∧ answer_count < MIN_MATCHABLE_ANSWERS then
    (⟨false, false, true, some "insufficient_answers"⟩, job?)
  else
    match job? with
    | none =>
        (⟨true, false, false, none⟩,
         some { user_id := user_id, status := .pending, attempts := 0,
                error_message := "", created_at := now, updated_at := now })
    | some job =>
        if job.status ≠ .pending ∨ force = true then
          (⟨false, true, false, none⟩,
           some { job with status := .pending, error_message := "", updated_at := now })
        else
          (⟨false, false, false, none⟩, some { job with updated_at := now })

/-- Embedding of `should_enqueue_after_answer` (returns
`(should_enqueue, force_enqueue)`).  `questions_answered_count` models
`user.questions_answered_count or 0`. -/
def should_enqueue_after_answer (question_id : String)
    (questions_answered_count : ℕ) (created : Bool) : Bool × Bool :=
  let match_ready : Bool := decide (MIN_MATCHABLE_ANSWERS ≤ questions_answered_count)
  let is_onboarding_trigger : Bool := decide (question_id ∈ ONBOARDING_TRIGGER_QUESTION_IDS)
  if created = false then
    -- Updates to existing answers trigger a recalculation once match-ready
    (match_ready, match_ready)
  else if match_ready = false then
    (false, false)
  else if is_onboarding_trigger then
    -- First time finishing onboarding: force resets the job to pending
    (true, true)
  else if MIN_MATCHABLE_ANSWERS < questions_answered_count then
    -- Post-onboarding new answers enqueue normally
    (true, false)
  else
    (false, false)

/-! ### IncrementalWorker (scheduledTick) -/

def ERROR_MESSAGE_MAX_LENGTH : ℕ := 500

/-- Bounded-length error message stored on a Failed job. -/
def truncate_error (s : String) : String := s.take ERROR_MESSAGE_MAX_LENGTH

/-- Modelled from the spec: processing of one claimed job by the
IncrementalWorker (spec section 4.6).  The repository has no scheduled
worker that drains `CompatibilityJob` rows under src — only the
`CompatibilityJob` state declarations, the enqueue producers and an
inline completion path exist there — so the per-job transition is taken
from the spec's words: transition the job to Processing, increment
`attempts`, run the batch recalculation (its outcome is the oracle
`recalc`), then transition to Completed on success or Failed with a
truncated error message on exception. -/
def process_job (recalc : ℕ → Except String Unit) (j : Job) : Job :=
  let claimed := { j with status := JobStatus.processing, attempts := j.attempts + 1 }
  match recalc j.user_id with
  | .ok _ => { claimed with status := JobStatus.completed }
  | .error e => { claimed with status := JobStatus.failed, error_message := truncate_error e }

/-- Modelled from the spec: one `scheduledTick(maxItems, maxSeconds)` of
the IncrementalWorker (spec section 4.6), which is absent under src.
The job list stands for the Pending-first query ordered oldest-first
(`created_at`); non-Pending rows are left untouched and do not consume
budget.  The wall-clock budget is treated as unbounded, which is the
regime of the claim under verification. -/
def scheduled_tick (recalc : ℕ → Except String Unit) :
    ℕ → List Job → List Job
  | _, [] => []
  | 0, rest => rest
  | max_items + 1, j :: rest =>
      if j.status = JobStatus.pending then
        process_job recalc j :: scheduled_tick recalc max_items rest
      else
        j :: scheduled_tick recalc (max_items + 1) rest

/-! ### Concrete sample data (used by witnesses and counterexamples) -/

def sample_answer : UserAnswerData := ⟨3, false, 3, 3, false, 3⟩

/-- Both users answered question 1. -/
def sample_map : AnswerMap := ⟨{1}, fun _ => sample_answer⟩

/-- User answered only question 2. -/
def cx_map_a : AnswerMap := ⟨{2}, fun _ => sample_answer⟩

/-- User answered only question 1. -/
def cx_map_b : AnswerMap := ⟨{1}, fun _ => sample_answer⟩

def sample_pair_record : StoredCompatibility :=
  ⟨1, 2, 70, 30, 60, 5, 40, 20, 10, 10, 3, 1/2, 1/4⟩

def sample_failed_job : Job := ⟨7, JobStatus.failed, 2, "boom", 0, 0⟩

def sample_job1 : Job := ⟨1, JobStatus.pending, 0, "", 0, 0⟩

def sample_job2 : Job := ⟨2, JobStatus.pending, 0, "", 1, 1⟩

def sample_recalc : ℕ → Except String Unit := fun _ => Except.ok ()

noncomputable def sample_db : UserDb := ⟨fun _ => sample_map, fun _ => ∅⟩

/-- Worked-example user 1: mySelf 4, open to all on what they want,
importance 5 on their want. -/
def worked_u1 : UserAnswerData := ⟨4, false, 3, 1, true, 5⟩

/-- Worked-example user 2: wants 5 with importance 5. -/
def worked_u2 : UserAnswerData := ⟨2, false, 3, 5, false, 5⟩

def worked_map1 : AnswerMap := ⟨{1}, fun _ => worked_u1⟩

def worked_map2 : AnswerMap := ⟨{1}, fun _ => worked_u2⟩

/-! ## Theorems -/

/-- C5: for every exponent e, the importance-to-factor mapping satisfies
factor(1)=0.0, factor(2)=0.5, factor(3)=1.0, factor(4)=1+1^e,
factor(5)=1+2^e; and for every importance value outside {1,2,3,4,5} it
returns the fallback value 1.0 rather than raising an error. -/
theorem importance_factor_spec (e : ℝ) (i : ℤ)
    (h1 : i ≠ 1) (h2 : i ≠ 2) (h3 : i ≠ 3) (h4 : i ≠ 4) (h5 : i ≠ 5) :
    map_importance_to_factor 1 e = 0
    ∧ map_importance_to_factor 2 e = 0.5
    ∧ map_importance_to_factor 3 e = 1
    ∧ map_importance_to_factor 4 e = 1 + (1 : ℝ) ^ e
    ∧ map_importance_to_factor 5 e = 1 + (2 : ℝ) ^ e
    ∧ map_importance_to_factor i e = 1 := by
  refine ⟨by norm_num [map_importance_to_factor], by norm_num [map_importance_to_factor],
    by norm_num [map_importance_to_factor], ?_, ?_, ?_⟩
  · norm_num [map_importance_to_factor]
  · norm_num [map_importance_to_factor]
  · norm_num [map_importance_to_factor, h1, h2, h3, h4, h5]

/-- C5 witness: the mapping evaluated at exponent 2 and the
out-of-range importance value 7. -/
theorem importance_factor_spec_witness :
    map_importance_to_factor 1 2 = 0
    ∧ map_importance_to_factor 2 2 = 0.5
    ∧ map_importance_to_factor 3 2 = 1
    ∧ map_importance_to_factor 4 2 = 1 + (1 : ℝ) ^ (2 : ℝ)
    ∧ map_importance_to_factor 5 2 = 1 + (2 : ℝ) ^ (2 : ℝ)
    ∧ map_importance_to_factor 7 2 = 1 :=
  importance_factor_spec 2 7 (by decide) (by decide) (by decide) (by decide) (by decide)

/-- C6: if myOpenToAll is true, or myWant = 6, or theirSelf = 6, then
direction A of the question score returns M_A = adjust * otaWeight and
MAX_A = adjust, independent of the concrete values of theirSelf, myWant
and myImportance; symmetrically for direction B under theirOpenToAll,
theirWant = 6 or mySelf = 6. -/
theorem question_score_open_to_all (c : Constants)
    (my_them my_importance their_me my_me their_them their_importance : ℤ)
    (my_open_to_all their_open_to_all : Bool) :
    (my_open_to_all = true ∨ my_them = 6 ∨ their_me = 6 →
      (calculate_question_score c my_them my_importance their_me my_me their_them
          their_importance my_open_to_all their_open_to_all).M_A = c.adjust * c.ota
      ∧ (calculate_question_score c my_them my_importance their_me my_me their_them
          their_importance my_open_to_all their_open_to_all).MAX_A = c.adjust)
    ∧ (their_open_to_all = true ∨ their_them = 6 ∨ my_me = 6 →
      (calculate_question_score c my_them my_importance their_me my_me their_them
          their_importance my_open_to_all their_open_to_all).M_B = c.adjust * c.ota
      ∧ (calculate_question_score c my_them my_importance their_me my_me their_them
          their_importance my_open_to_all their_open_to_all).MAX_B = c.adjust) := by
  constructor <;> intro h <;>
    simp only [calculate_question_score] <;>
    split_ifs <;> simp_all

/-- C6 witness: direction A gated by my open-to-all flag and direction B
gated by theirWant = 6 (all other inputs concrete and non-gating). -/
theorem question_score_open_to_all_witness :
    (calculate_question_score defaultConstants 1 3 2 4 6 3 true false).M_A
        = defaultConstants.adjust * defaultConstants.ota
    ∧ (calculate_question_score defaultConstants 1 3 2 4 6 3 true false).MAX_A
        = defaultConstants.adjust
    ∧ (calculate_question_score defaultConstants 1 3 2 4 6 3 true false).M_B
        = defaultConstants.adjust * defaultConstants.ota
    ∧ (calculate_question_score defaultConstants 1 3 2 4 6 3 true false).MAX_B
        = defaultConstants.adjust := by
  obtain ⟨hA, hB⟩ := question_score_open_to_all defaultConstants 1 3 2 4 6 3 true false
  obtain ⟨h1, h2⟩ := hA (Or.inl rfl)
  obtain ⟨h3, h4⟩ := hB (Or.inr (Or.inl rfl))
  exact ⟨h1, h2, h3, h4⟩

/-- C2: for any stored compatibility pair (A, B), regardless of which
user was written as slot1 at insertion time, reading the pair as A
returns a compatibleWithMe equal to the imCompatibleWith returned when
reading the same pair as B, and vice versa (directional fields are
swapped exactly when the requesting user occupies slot2). -/
theorem compatibility_read_symmetry (rec : StoredCompatibility) (A B : ℕ)
    (hAB : A ≠ B)
    (hpair : rec.user1_id = A ∧ rec.user2_id = B ∨ rec.user1_id = B ∧ rec.user2_id = A) :
    (compatibility_with rec A).compatible_with_me
      = (compatibility_with rec B).im_compatible_with
    ∧ (compatibility_with rec A).im_compatible_with
      = (compatibility_with rec B).compatible_with_me := by
  rcases hpair with ⟨h1, _⟩ | ⟨h1, _⟩ <;>
    simp [compatibility_with, h1, hAB, Ne.symm hAB]

/-- C2 witness: a concrete row stored with slot1 = 1, slot2 = 2, read as
user 1 and as user 2. -/
theorem compatibility_read_symmetry_witness :
    (compatibility_with sample_pair_record 1).compatible_with_me
      = (compatibility_with sample_pair_record 2).im_compatible_with
    ∧ (compatibility_with sample_pair_record 1).im_compatible_with
      = (compatibility_with sample_pair_record 2).compatible_with_me :=
  compatibility_read_symmetry sample_pair_record 1 2 (by decide) (Or.inl ⟨rfl, rfl⟩)

/-- C9: calling enqueueForRecalculation with force = false on a user
below the match-ready threshold (10 answers) returns
skipped(insufficientAnswers) and leaves the job table unchanged (no row
created); calling it with force = true always leaves the user's job in
Pending status with a cleared error message, regardless of the job's
prior state or prior existence. -/
theorem enqueue_for_recalculation_spec (answer_count : ℕ) (job? : Option Job)
    (now user_id : ℕ) :
    (answer_count < MIN_MATCHABLE_ANSWERS →
      enqueue_user_for_recalculation answer_count job? false now user_id
        = (⟨false, false, true, some "insufficient_answers"⟩, job?))
    ∧ ∃ j, (enqueue_user_for_recalculation answer_count job? true now user_id).2 = some j
        ∧ j.status = JobStatus.pending ∧ j.error_message = "" := by
  constructor
  · intro h
    simp [enqueue_user_for_recalculation, h]
  · cases job? with
    | none =>
        refine ⟨⟨user_id, JobStatus.pending, 0, "", now, now⟩, ?_, rfl, rfl⟩
        simp [enqueue_user_for_recalculation]
    | some job =>
        refine ⟨⟨job.user_id, JobStatus.pending, job.attempts, "", job.created_at, now⟩,
          ?_, rfl, rfl⟩
        simp [enqueue_user_for_recalculation]

/-- C9 witness: a user with 3 answers and an existing Failed job with a
non-empty error message. -/
theorem enqueue_for_recalculation_spec_witness :
    (enqueue_user_for_recalculation 3 (some sample_failed_job) false 0 7
        = (⟨false, false, true, some "insufficient_answers"⟩, some sample_failed_job))
    ∧ ∃ j, (enqueue_user_for_recalculation 3 (some sample_failed_job) true 0 7).2 = some j
        ∧ j.status = JobStatus.pending ∧ j.error_message = "" :=
  ⟨(enqueue_for_recalculation_spec 3 (some sample_failed_job) 0 7).1 (by decide),
   (enqueue_for_recalculation_spec 3 (some sample_failed_job) 0 7).2⟩

/-- C8: the enqueue policy after an answer submission. An update to an
existing answer enqueues (and forces) exactly when the user is already
match-ready (count ≥ 10); a brand-new answer enqueues only once the user
has crossed the match-ready threshold; a designated onboarding-completion
question then forces an immediate reset-to-pending, and new answers past
onboarding (count strictly above the threshold) enqueue without force (a
non-trigger new answer at exactly the threshold does not enqueue). -/
theorem should_enqueue_after_answer_spec (question_id : String) (count : ℕ) :
    MIN_MATCHABLE_ANSWERS = 10
    ∧ should_enqueue_after_answer question_id count false
        = (decide (10 ≤ count), decide (10 ≤ count))
    ∧ (count < 10 → should_enqueue_after_answer question_id count true = (false, false))
    ∧ (10 ≤ count → question_id ∈ ONBOARDING_TRIGGER_QUESTION_IDS →
        should_enqueue_after_answer question_id count true = (true, true))
    ∧ (10 < count → question_id ∉ ONBOARDING_TRIGGER_QUESTION_IDS →
        should_enqueue_after_answer question_id count true = (true, false))
    ∧ (count = 10 → question_id ∉ ONBOARDING_TRIGGER_QUESTION_IDS →
        should_enqueue_after_answer question_id count true = (false, false))
    ∧ (∀ created, (should_enqueue_after_answer question_id count created).1 = true →
        10 ≤ count) := by
  refine ⟨rfl, ?_, ?_, ?_, ?_, ?_, ?_⟩
  · simp [should_enqueue_after_answer, MIN_MATCHABLE_ANSWERS]
  · intro h
    simp [should_enqueue_after_answer, MIN_MATCHABLE_ANSWERS, Nat.not_le.mpr h]
  · intro h htrig
    simp [should_enqueue_after_answer, MIN_MATCHABLE_ANSWERS, h, htrig]
  · intro h htrig
    simp [should_enqueue_after_answer, MIN_MATCHABLE_ANSWERS, htrig, h, Nat.le_of_lt h]
  · intro h htrig
    subst h
    simp [should_enqueue_after_answer, MIN_MATCHABLE_ANSWERS, htrig]
  · intro created
    cases created <;>
      simp only [should_enqueue_after_answer, MIN_MATCHABLE_ANSWERS] <;>
      split_ifs <;> simp_all

/-- C8 witness: a trigger question at count 15 forces; a non-trigger new
answer at count 5 does not enqueue; a non-trigger new answer at count 15
enqueues without force; a non-trigger new answer at exactly 10 does not
enqueue. -/
theorem should_enqueue_after_answer_spec_witness :
    should_enqueue_after_answer "b3d3b8c8-f1ef-43ce-8e36-1b78b75848c6" 15 true = (true, true)
    ∧ should_enqueue_after_answer "other-question" 5 true = (false, false)
    ∧ should_enqueue_after_answer "other-question" 15 true = (true, false)
    ∧ should_enqueue_after_answer "other-question" 10 true = (false, false) :=
  ⟨(should_enqueue_after_answer_spec "b3d3b8c8-f1ef-43ce-8e36-1b78b75848c6" 15).2.2.2.1
      (by decide) (by decide),
   (should_enqueue_after_answer_spec "other-question" 5).2.2.1 (by decide),
   (should_enqueue_after_answer_spec "other-question" 15).2.2.2.2.1 (by decide) (by decide),
   (should_enqueue_after_answer_spec "other-question" 10).2.2.2.2.2.1 rfl (by decide)⟩

/-- C10: the pair-compatibility cache key is built from the sorted pair
of user ids, so it is identical for both argument orders; after a call
with (A, B) has populated the cache, a call with (B, A) before expiry
returns the cached dictionary byte-identical — on a miss the first
call's result is oriented to A (its first argument) and the reversed
call does not swap the directional fields. -/
theorem cache_orientation_spec (db : UserDb) (c : Constants)
    (cache : String → Option CompatibilityResult) (A B : ℕ) :
    cache_key A B = cache_key B A
    ∧ calculate_with_cache db c (calculate_with_cache db c cache A B).2 B A
        = calculate_with_cache db c cache A B
    ∧ (cache (cache_key A B) = none →
        (calculate_with_cache db c cache A B).1
          = calculate_compatibility_between_users (db.answers A) (db.answers B)
              (db.required A) (db.required B) c) := by
  have hkey : cache_key A B = cache_key B A := by
    unfold cache_key
    rw [min_comm, max_comm]
  refine ⟨hkey, ?_, ?_⟩
  · unfold calculate_with_cache
    cases h : cache (cache_key A B) with
    | some r => simp [← hkey, h]
    | none => simp [← hkey, h]
  · intro h
    unfold calculate_with_cache
    simp [h]

/-- C10 witness: an initially empty cache with user ids 1 and 2. -/
theorem cache_orientation_spec_witness :
    cache_key 1 2 = cache_key 2 1
    ∧ calculate_with_cache sample_db defaultConstants
          (calculate_with_cache sample_db defaultConstants (fun _ => none) 1 2).2 2 1
        = calculate_with_cache sample_db defaultConstants (fun _ => none) 1 2
    ∧ (calculate_with_cache sample_db defaultConstants (fun _ => none) 1 2).1
        = calculate_compatibility_between_users (sample_db.answers 1) (sample_db.answers 2)
            (sample_db.required 1) (sample_db.required 2) defaultConstants :=
  ⟨(cache_orientation_spec sample_db defaultConstants (fun _ => none) 1 2).1,
   (cache_orientation_spec sample_db defaultConstants (fun _ => none) 1 2).2.1,
   (cache_orientation_spec sample_db defaultConstants (fun _ => none) 1 2).2.2 rfl⟩

/-- C7: when both users' required-question sets are empty, the required
compatibility outputs (required overall, required compatible-with-me,
required I'm-compatible-with, required mutual count) equal the
unrestricted outputs computed over all mutually-answered questions, and
both completeness values equal 1.0. -/
theorem required_defaults_when_no_required (a1 a2 : AnswerMap)
    (u1req u2req : Finset ℕ) (c : Constants)
    (h1 : u1req = ∅) (h2 : u2req = ∅) :
    (calculate_compatibility_between_users a1 a2 u1req u2req c).required_overall_compatibility
      = (calculate_compatibility_between_users a1 a2 u1req u2req c).overall_compatibility
    ∧ (calculate_compatibility_between_users a1 a2 u1req u2req c).required_compatible_with_me
      = (calculate_compatibility_between_users a1 a2 u1req u2req c).compatible_with_me
    ∧ (calculate_compatibility_between_users a1 a2 u1req u2req c).required_im_compatible_with
      = (calculate_compatibility_between_users a1 a2 u1req u2req c).im_compatible_with
    ∧ (calculate_compatibility_between_users a1 a2 u1req u2req c).required_mutual_questions_count
      = (calculate_compatibility_between_users a1 a2 u1req u2req c).mutual_questions_count
    ∧ (calculate_compatibility_between_users a1 a2 u1req u2req c).user1_required_completeness = 1.0
    ∧ (calculate_compatibility_between_users a1 a2 u1req u2req c).user2_required_completeness = 1.0 := by
  subst h1 h2
  simp [calculate_compatibility_between_users]

/-- C7 witness: two users sharing one answered question, both with empty
required sets. -/
theorem required_defaults_when_no_required_witness :
    (calculate_compatibility_between_users sample_map sample_map ∅ ∅
        defaultConstants).required_overall_compatibility
      = (calculate_compatibility_between_users sample_map sample_map ∅ ∅
          defaultConstants).overall_compatibility
    ∧ (calculate_compatibility_between_users sample_map sample_map ∅ ∅
          defaultConstants).required_compatible_with_me
      = (calculate_compatibility_between_users sample_map sample_map ∅ ∅
          defaultConstants).compatible_with_me
    ∧ (calculate_compatibility_between_users sample_map sample_map ∅ ∅
          defaultConstants).required_im_compatible_with
      = (calculate_compatibility_between_users sample_map sample_map ∅ ∅
          defaultConstants).im_compatible_with
    ∧ (calculate_compatibility_between_users sample_map sample_map ∅ ∅
          defaultConstants).required_mutual_questions_count
      = (calculate_compatibility_between_users sample_map sample_map ∅ ∅
          defaultConstants).mutual_questions_count
    ∧ (calculate_compatibility_between_users sample_map sample_map ∅ ∅
          defaultConstants).user1_required_completeness = 1.0
    ∧ (calculate_compatibility_between_users sample_map sample_map ∅ ∅
          defaultConstants).user2_required_completeness = 1.0 :=
  required_defaults_when_no_required sample_map sample_map ∅ ∅ defaultConstants rfl rfl

/-- C3 counterexample: the claim says a user's required completeness is
1.0 when the other user has no required set at all, and that the
denominator of the completeness fraction is the other user's full
required set.  Both fail on the code: with user1 requiring question 1
and user2 requiring nothing, user1's completeness is 0, not 1; and with
user2 requiring questions 1 and 2 but having answered only question 1,
while user1 answered only question 2, user1's completeness is 1 (the
denominator is user2's answered-required count), not the claimed
fraction 1/2 of user2's full required set. -/
theorem completeness_claim_counterexample :
    (calculate_compatibility_between_users sample_map sample_map {1} ∅
        defaultConstants).user1_required_completeness ≠ 1
    ∧ (calculate_compatibility_between_users sample_map sample_map {1} ∅
        defaultConstants).user1_required_completeness = 0
    ∧ (calculate_compatibility_between_users cx_map_a cx_map_b ∅ {1, 2}
        defaultConstants).user1_required_completeness = 1
    ∧ (1 : ℝ) ≠ 1 / 2 := by
  have hcard1 : ((({1, 2} : Finset ℕ) ∩ ({1} : Finset ℕ)).card) = 1 := by decide
  have hcard2 : ((({1, 2} : Finset ℕ) ∩ ({2} : Finset ℕ)).card) = 1 := by decide
  refine ⟨?_, ?_, ?_, by norm_num⟩
  · norm_num [calculate_compatibility_between_users, required_scores_branch,
      clamp01, sample_map]
  · norm_num [calculate_compatibility_between_users, required_scores_branch,
      clamp01, sample_map]
  · norm_num [calculate_compatibility_between_users, required_scores_branch,
      clamp01, cx_map_a, cx_map_b, hcard1, hcard2]

/-- C3 (amended): when at least one user of the pair has a non-empty
required set, each user's required completeness equals the clamped-to-
[0,1] ratio of (the other user's required questions this user answered)
to (the other user's required questions the OTHER user answered
themselves), and it is 0.0 when that denominator is zero — in
particular, a user's completeness is 0.0 (not 1.0) whenever the other
user's required set is empty. -/
theorem completeness_amended (a1 a2 : AnswerMap) (u1req u2req : Finset ℕ)
    (c : Constants) (h : ¬(u1req = ∅ ∧ u2req = ∅)) :
    (calculate_compatibility_between_users a1 a2 u1req u2req c).user1_required_completeness
      = clamp01 (if 0 < (u2req ∩ a2.keys).card
          then ((u2req ∩ a1.keys).card : ℝ) / ((u2req ∩ a2.keys).card : ℝ) else 0)
    ∧ (calculate_compatibility_between_users a1 a2 u1req u2req c).user2_required_completeness
      = clamp01 (if 0 < (u1req ∩ a1.keys).card
          then ((u1req ∩ a2.keys).card : ℝ) / ((u1req ∩ a1.keys).card : ℝ) else 0)
    ∧ (u2req = ∅ →
        (calculate_compatibility_between_users a1 a2 u1req u2req c).user1_required_completeness = 0)
    ∧ (u1req = ∅ →
        (calculate_compatibility_between_users a1 a2 u1req u2req c).user2_required_completeness = 0) := by
  have h1 : (calculate_compatibility_between_users a1 a2 u1req u2req c).user1_required_completeness
      = clamp01 (if 0 < (u2req ∩ a2.keys).card
          then ((u2req ∩ a1.keys).card : ℝ) / ((u2req ∩ a2.keys).card : ℝ) else 0) := by
    unfold calculate_compatibility_between_users
    rw [if_neg h]
    rfl
  have h2 : (calculate_compatibility_between_users a1 a2 u1req u2req c).user2_required_completeness
      = clamp01 (if 0 < (u1req ∩ a1.keys).card
          then ((u1req ∩ a2.keys).card : ℝ) / ((u1req ∩ a1.keys).card : ℝ) else 0) := by
    unfold calculate_compatibility_between_users
    rw [if_neg h]
    rfl
  refine ⟨h1, h2, ?_, ?_⟩
  · intro hempty
    rw [h1, hempty]
    norm_num [clamp01]
  · intro hempty
    rw [h2, hempty]
    norm_num [clamp01]

/-- C3 witness: user1 requires question 1, user2 requires nothing; both
answered question 1; user1's completeness evaluates to 0. -/
theorem completeness_amended_witness :
    (calculate_compatibility_between_users sample_map sample_map {1} ∅
        defaultConstants).user1_required_completeness = 0 :=
  (completeness_amended sample_map sample_map {1} ∅ defaultConstants
    (by decide)).2.2.1 rfl

/-- C1: the score aggregation sums numerators and denominators
independently across the mutually-answered questions, returns
pctX = 100 * sum(M_X)/sum(MAX_X) with pctX = 0 when the summed
denominator is 0, and returns overall = sqrt(pctA * pctB) when both
percentages are strictly positive and 0 otherwise (a 100/0 split yields
overall 0).  Stated as: the code's aggregation equals the spec-side
formulas `pctA_spec`, `pctB_spec`, `overall_spec`. -/
theorem aggregate_matches_spec (a1 a2 : AnswerMap) (c : Constants) :
    (compute_scores_from_answer_maps a1 a2 c).compatible_with_me = pctA_spec a1 a2 c
    ∧ (compute_scores_from_answer_maps a1 a2 c).im_compatible_with = pctB_spec a1 a2 c
    ∧ (compute_scores_from_answer_maps a1 a2 c).overall_compatibility = overall_spec a1 a2 c
    ∧ (compute_scores_from_answer_maps a1 a2 c).mutual_count = (a1.keys ∩ a2.keys).card := by
  have hxA : (if 0 < sum_MAX_A_spec a1 a2 c
        then sum_M_A_spec a1 a2 c / sum_MAX_A_spec a1 a2 c else 0) * 100
      = pctA_spec a1 a2 c := by
    unfold pctA_spec
    split_ifs <;> ring
  have hxB : (if 0 < sum_MAX_B_spec a1 a2 c
        then sum_M_B_spec a1 a2 c / sum_MAX_B_spec a1 a2 c else 0) * 100
      = pctB_spec a1 a2 c := by
    unfold pctB_spec
    split_ifs <;> ring
  by_cases hmut : a1.keys ∩ a2.keys = ∅
  · have hSA : sum_MAX_A_spec a1 a2 c = 0 := by
      rw [sum_MAX_A_spec, hmut, Finset.sum_empty]
    have hSB : sum_MAX_B_spec a1 a2 c = 0 := by
      rw [sum_MAX_B_spec, hmut, Finset.sum_empty]
    have hpA : pctA_spec a1 a2 c = 0 := by
      rw [pctA_spec, hSA]
      norm_num
    have hpB : pctB_spec a1 a2 c = 0 := by
      rw [pctB_spec, hSB]
      norm_num
    have hco : compute_scores_from_answer_maps a1 a2 c = ⟨0, 0, 0, 0⟩ := by
      unfold compute_scores_from_answer_maps
      rw [if_pos hmut]
    rw [hco]
    refine ⟨hpA.symm, hpB.symm, ?_, by rw [hmut, Finset.card_empty]⟩
    rw [overall_spec, hpA, hpB]
    norm_num
  · have h1 : (compute_scores_from_answer_maps a1 a2 c).compatible_with_me
        = (if 0 < sum_MAX_A_spec a1 a2 c
            then sum_M_A_spec a1 a2 c / sum_MAX_A_spec a1 a2 c else 0) * 100 := by
      unfold compute_scores_from_answer_maps sum_MAX_A_spec sum_M_A_spec
      rw [if_neg hmut]
    have h2 : (compute_scores_from_answer_maps a1 a2 c).im_compatible_with
        = (if 0 < sum_MAX_B_spec a1 a2 c
            then sum_M_B_spec a1 a2 c / sum_MAX_B_spec a1 a2 c else 0) * 100 := by
      unfold compute_scores_from_answer_maps sum_MAX_B_spec sum_M_B_spec
      rw [if_neg hmut]
    have h3 : (compute_scores_from_answer_maps a1 a2 c).overall_compatibility
        = (if 0 < (if 0 < sum_MAX_A_spec a1 a2 c
                then sum_M_A_spec a1 a2 c / sum_MAX_A_spec a1 a2 c else 0) * 100
              ∧ 0 < (if 0 < sum_MAX_B_spec a1 a2 c
                then sum_M_B_spec a1 a2 c / sum_MAX_B_spec a1 a2 c else 0) * 100
           then Real.sqrt ((if 0 < sum_MAX_A_spec a1 a2 c
                then sum_M_A_spec a1 a2 c / sum_MAX_A_spec a1 a2 c else 0) * 100
              * ((if 0 < sum_MAX_B_spec a1 a2 c
                then sum_M_B_spec a1 a2 c / sum_MAX_B_spec a1 a2 c else 0) * 100))
           else 0) := by
      unfold compute_scores_from_answer_maps sum_MAX_A_spec sum_M_A_spec
        sum_MAX_B_spec sum_M_B_spec
      rw [if_neg hmut]
    have h4 : (compute_scores_from_answer_maps a1 a2 c).mutual_count
        = (a1.keys ∩ a2.keys).card := by
      unfold compute_scores_from_answer_maps
      rw [if_neg hmut]
    refine ⟨h1.trans hxA, h2.trans hxB, ?_, h4⟩
    rw [h3, hxA, hxB, overall_spec]

/-- Sanity anchor for the embedding (the spec's worked numeric example):
one mutual question, direction A open (myOpenToAll) and direction B
closed with delta 1 and importance factor 5, under the default constants
adjust 5, exponent 2, ota 0.5: pctA = 50, pctB = 80 and
overall = sqrt(50 * 80). -/
example :
    (compute_scores_from_answer_maps worked_map1 worked_map2 defaultConstants).compatible_with_me
        = 50
    ∧ (compute_scores_from_answer_maps worked_map1 worked_map2 defaultConstants).im_compatible_with
        = 80
    ∧ (compute_scores_from_answer_maps worked_map1 worked_map2 defaultConstants).overall_compatibility
        = Real.sqrt (50 * 80) := by
  unfold compute_scores_from_answer_maps worked_map1 worked_map2
  norm_num [question_score_for, calculate_question_score, map_importance_to_factor,
    defaultConstants, worked_u1, worked_u2, Finset.sum_singleton]

/-- A processed job never ends up Pending: it is Completed or Failed. -/
theorem process_job_status_not_pending (recalc : ℕ → Except String Unit) (j : Job) :
    (process_job recalc j).status ≠ JobStatus.pending := by
  unfold process_job
  cases hr : recalc j.user_id <;> simp [hr]

/-- With an all-Pending job list, one tick processes the first
`max_items` jobs and leaves the rest untouched. -/
theorem scheduled_tick_structure (recalc : ℕ → Except String Unit) :
    ∀ (jobs : List Job) (K : ℕ), (∀ j ∈ jobs, j.status = JobStatus.pending) →
      scheduled_tick recalc K jobs
        = (jobs.take K).map (process_job recalc) ++ jobs.drop K := by
  intro jobs
  induction jobs with
  | nil => intro K _; cases K <;> rfl
  | cons j rest ih =>
      intro K hall
      cases K with
      | zero => rfl
      | succ k =>
          have hj : j.status = JobStatus.pending := hall j (List.mem_cons_self _ _)
          have hrest : ∀ x ∈ rest, x.status = JobStatus.pending :=
            fun x hx => hall x (List.mem_cons_of_mem _ hx)
          simp only [scheduled_tick, if_pos hj, List.take_succ_cons, List.map_cons,
            List.drop_succ_cons, List.cons_append, ih k hrest]

/-- Mapped (processed) jobs contribute nothing to the Pending filter. -/
theorem filter_pending_map_process (recalc : ℕ → Except String Unit) (l : List Job) :
    (l.map (process_job recalc)).filter (fun j => decide (j.status = JobStatus.pending)) = [] := by
  induction l with
  | nil => rfl
  | cons j t ih =>
      simp [List.filter_cons, process_job_status_not_pending recalc j, ih]

/-- Mapped (processed) jobs all survive the non-Pending filter. -/
theorem filter_nonpending_map_process (recalc : ℕ → Except String Unit) (l : List Job) :
    (l.map (process_job recalc)).filter (fun j => !decide (j.status = JobStatus.pending))
      = l.map (process_job recalc) := by
  induction l with
  | nil => rfl
  | cons j t ih =>
      simp [List.filter_cons, process_job_status_not_pending recalc j, ih]

/-- C4 (modelled from the spec, section 4.6): for N users each with a
Pending recalculation job, one scheduled tick with item budget K < N and
an unbounded time budget transitions exactly the K oldest jobs out of
Pending (the remaining N-K stay Pending and untouched); each processed
job has attempts incremented and ends Completed on success or Failed
with a truncated error message on exception. -/
theorem scheduled_tick_budget (recalc : ℕ → Except String Unit) (jobs : List Job) (K : ℕ)
    (hall : ∀ j ∈ jobs, j.status = JobStatus.pending)
    (hsorted : jobs.Pairwise (fun a b => a.created_at ≤ b.created_at))
    (hK : K < jobs.length) :
    scheduled_tick recalc K jobs = (jobs.take K).map (process_job recalc) ++ jobs.drop K
    ∧ ((scheduled_tick recalc K jobs).filter
        (fun j => decide (j.status = JobStatus.pending))).length = jobs.length - K
    ∧ ((scheduled_tick recalc K jobs).filter
        (fun j => !decide (j.status = JobStatus.pending))).length = K
    ∧ (∀ j ∈ jobs.take K, ∀ j' ∈ jobs.drop K, j.created_at ≤ j'.created_at)
    ∧ (∀ j ∈ jobs,
        (process_job recalc j).attempts = j.attempts + 1
        ∧ (recalc j.user_id = Except.ok () →
            (process_job recalc j).status = JobStatus.completed)
        ∧ ∀ e, recalc j.user_id = Except.error e →
            (process_job recalc j).status = JobStatus.failed
            ∧ (process_job recalc j).error_message = truncate_error e) := by
  have hstruct := scheduled_tick_structure recalc jobs K hall
  have hdrop_pending : ∀ j ∈ jobs.drop K, j.status = JobStatus.pending :=
    fun j hj => hall j (List.mem_of_mem_drop hj)
  have hdrop_filter : (jobs.drop K).filter
      (fun j => decide (j.status = JobStatus.pending)) = jobs.drop K := by
    rw [List.filter_eq_self]
    intro j hj
    simp [hdrop_pending j hj]
  have hdrop_nonfilter : (jobs.drop K).filter
      (fun j => !decide (j.status = JobStatus.pending)) = [] := by
    rw [List.filter_eq_nil_iff]
    intro j hj
    simp [hdrop_pending j hj]
  refine ⟨hstruct, ?_, ?_, ?_, ?_⟩
  · rw [hstruct, List.filter_append, filter_pending_map_process, hdrop_filter,
      List.nil_append, List.length_drop]
  · rw [hstruct, List.filter_append, filter_nonpending_map_process, hdrop_nonfilter,
      List.append_nil, List.length_map, List.length_take]
    exact min_eq_left hK.le
  · have hsplit : List.Pairwise (fun a b => a.created_at ≤ b.created_at)
        (jobs.take K ++ jobs.drop K) := by
      rw [List.take_append_drop]
      exact hsorted
    exact (List.pairwise_append.mp hsplit).2.2
  · intro j _
    refine ⟨?_, ?_, ?_⟩
    · unfold process_job
      cases hr : recalc j.user_id <;> simp [hr]
    · intro hok
      simp [process_job, hok]
    · intro e herr
      simp [process_job, herr]

/-- C4 witness: two Pending jobs (oldest first) and an item budget of 1
with an always-succeeding recalculation. -/
theorem scheduled_tick_budget_witness :
    scheduled_tick sample_recalc 1 [sample_job1, sample_job2]
      = ([sample_job1, sample_job2].take 1).map (process_job sample_recalc)
          ++ [sample_job1, sample_job2].drop 1
    ∧ ((scheduled_tick sample_recalc 1 [sample_job1, sample_job2]).filter
        (fun j => decide (j.status = JobStatus.pending))).length
      = [sample_job1, sample_job2].length - 1
    ∧ ((scheduled_tick sample_recalc 1 [sample_job1, sample_job2]).filter
        (fun j => !decide (j.status = JobStatus.pending))).length = 1
    ∧ (∀ j ∈ [sample_job1, sample_job2].take 1, ∀ j' ∈ [sample_job1, sample_job2].drop 1,
        j.created_at ≤ j'.created_at)
    ∧ (∀ j ∈ [sample_job1, sample_job2],
        (process_job sample_recalc j).attempts = j.attempts + 1
        ∧ (sample_recalc j.user_id = Except.ok () →
            (process_job sample_recalc j).status = JobStatus.completed)
        ∧ ∀ e, sample_recalc j.user_id = Except.error e →
            (process_job sample_recalc j).status = JobStatus.failed
            ∧ (process_job sample_recalc j).error_message = truncate_error e) :=
  scheduled_tick_budget sample_recalc [sample_job1, sample_job2] 1
    (by decide) (by decide) (by decide)

end Compat
